import Mathlib

/-!
Shallow embedding of `pyannote-diarization.py`, a command-line adapter that
invokes a pretrained speaker-diarization pipeline and reshapes its output
into JSON.

The external library surface (`pyannote.audio.Pipeline`, `torch`) is modelled
by an `Env` record supplying the outcome of each library call: pipeline
instantiation from cache, instantiation with an auth token, accelerator
availability, device transfer, and inference.  A Python exception is a
`PyErr` carrying `str(e)` and `type(e).__name__`.  The embedding is
instrumented with an event trace (`Ev`) recording, in order, every library
call the script makes, so that claims about which calls are attempted can be
stated.  Standard error output is not modelled (no claim concerns it);
standard output and the optional output file are.
-/

/-- `str(e)` and `type(e).__name__` of a raised Python exception. -/
structure PyErr where
  msg : String
  typeName : String
deriving DecidableEq, Repr

/-- The pipeline object returned by `Pipeline.from_pretrained`.  The script
inspects it only through `hasattr(pipeline, 'device')` and
`str(pipeline.device)`; `device = none` models the attribute being absent. -/
structure Pipeline where
  device : Option String
deriving DecidableEq, Repr

/-- A `pyannote.core` time interval: `turn.start` and `turn.end`
(`stop` stands for `end`, a Lean keyword).  Times are modelled as rationals. -/
structure Turn where
  start : Rat
  stop : Rat
deriving DecidableEq, Repr

/-- One element of `diarization.itertracks(yield_label=True)`:
a `(turn, track-id, speaker-label)` triple. -/
structure TrackEntry where
  turn : Turn
  track : String
  speaker : String
deriving DecidableEq, Repr

/-- Library-call events, in the order the script performs them. -/
inductive Ev where
  | loadNoToken
  | loadWithToken
  | moveTo (d : String)
  | runInference
deriving DecidableEq, Repr

/-- Is this event a `Pipeline.from_pretrained` call? -/
def Ev.isLoad : Ev → Bool
  | .loadNoToken => true
  | .loadWithToken => true
  | _ => false

/-- Outcomes of every external library call the script can make. -/
structure Env where
  /-- `Pipeline.from_pretrained(name)` (no credentials). -/
  cacheLoad : String → Except PyErr Pipeline
  /-- `Pipeline.from_pretrained(name, use_auth_token=token)`. -/
  tokenLoad : String → String → Except PyErr Pipeline
  /-- `torch.cuda.is_available()`. -/
  cudaAvailable : Bool
  /-- `torch.backends.mps.is_available()`. -/
  mpsAvailable : Bool
  /-- `pipeline.to(torch.device(d))`. -/
  toDevice : Pipeline → String → Except PyErr Pipeline
  /-- `pipeline(audio_path)` followed by `.itertracks(yield_label=True)`. -/
  runPipeline : Pipeline → String → Except PyErr (List TrackEntry)

/-- One segment record of the success envelope. -/
structure Segment where
  speaker : String
  start_time : Rat
  end_time : Rat
  duration : Rat
  confidence : Rat
deriving DecidableEq, Repr

/-- The result dictionary built by `process_audio`: either the success shape
or the failure shape. -/
inductive Envelope where
  | ok (speakers : List Segment) (total_speakers : Nat) (total_segments : Nat)
      (model_version : String) (device_used : String)
  | failure (error : String) (error_type : String)
deriving DecidableEq, Repr

/-- `f"pyannote/speaker-diarization-{model_version}"`. -/
def pipelineName (modelVersion : String) : String :=
  "pyannote/speaker-diarization-" ++ modelVersion

/-- Python truthiness test `not auth_token`: true for `None` and for the
empty string. -/
def pyFalsy : Option String → Bool
  | none => true
  | some s => s.isEmpty

/-- Message of the exception raised when the cache load fails and no auth
token was supplied:
`f"Model not in cache and no auth token provided. Cache error: {cache_error}"`. -/
def noTokenMsg (cacheErrMsg : String) : String :=
  "Model not in cache and no auth token provided. Cache error: " ++ cacheErrMsg

/-- The model-acquisition phase of `process_audio`: try the cache-only load;
on failure raise if the token is falsy, otherwise retry once with the token.
Returns the outcome together with the trace of load calls made. -/
def phaseLoad (name : String) (authToken : Option String) (env : Env) :
    Except PyErr Pipeline × List Ev :=
  match env.cacheLoad name with
  | .ok p => (.ok p, [.loadNoToken])
  | .error ce =>
    if pyFalsy authToken then
      (.error ⟨noTokenMsg ce.msg, "Exception"⟩, [.loadNoToken])
    else
      match env.tokenLoad name (authToken.getD "") with
      | .ok p => (.ok p, [.loadNoToken, .loadWithToken])
      | .error e => (.error e, [.loadNoToken, .loadWithToken])

/-- The device-transfer phase of `process_audio`: move to cuda (resp. mps)
only when requested and available; otherwise leave the pipeline untouched. -/
def phaseDevice (device : String) (env : Env) (p : Pipeline) :
    Except PyErr Pipeline × List Ev :=
  if device = "cuda" ∧ env.cudaAvailable = true then
    (env.toDevice p "cuda", [Ev.moveTo "cuda"])
  else if device = "mps" ∧ env.mpsAvailable = true then
    (env.toDevice p "mps", [Ev.moveTo "mps"])
  else
    (Except.ok p, [])

/-- Projection of one `itertracks` triple into a segment record
(`confidence` hardcoded to `1.0`). -/
def mkSegment (t : TrackEntry) : Segment :=
  { speaker := t.speaker
    start_time := t.turn.start
    end_time := t.turn.stop
    duration := t.turn.stop - t.turn.start
    confidence := 1 }

/-- The sort key comparison of `speakers.sort(key=lambda x: x["start_time"])`. -/
def segLE (a b : Segment) : Bool :=
  a.start_time ≤ b.start_time

/-- `speakers.sort(key=lambda x: x["start_time"])`: a stable sort by
`start_time` (Python's sort is stable; `mergeSort` is the stable sort). -/
def sortSegments (l : List Segment) : List Segment :=
  l.mergeSort segLE

/-- `str(pipeline.device) if hasattr(pipeline, 'device') else device`. -/
def deviceUsed (p : Pipeline) (device : String) : String :=
  match p.device with
  | some d => d
  | none => device

/-- `process_audio(audio_path, auth_token, model_version, device)`:
returns the result dictionary (the `try` body, with every exception caught
and converted to the failure shape) together with the library-call trace. -/
def process_audio (audioPath : String) (authToken : Option String)
    (modelVersion : String) (device : String) (env : Env) :
    Envelope × List Ev :=
  match phaseLoad (pipelineName modelVersion) authToken env with
  | (.error e, tr) => (.failure e.msg e.typeName, tr)
  | (.ok p, tr) =>
    match phaseDevice device env p with
    | (.error e, tr2) => (.failure e.msg e.typeName, tr ++ tr2)
    | (.ok p2, tr2) =>
      match env.runPipeline p2 audioPath with
      | .error e => (.failure e.msg e.typeName, tr ++ tr2 ++ [.runInference])
      | .ok tracks =>
        let speakers := sortSegments (tracks.map mkSegment)
        (.ok speakers ((speakers.map Segment.speaker).dedup.length)
          speakers.length modelVersion (deviceUsed p2 device),
         tr ++ tr2 ++ [.runInference])

/-! JSON serialization.  The two early-error objects are serialized with
`json.dumps(..., )` default (compact) settings; the envelope with
`json.dumps(result, indent=2)`.  The encoder below abstracts the stdlib
encoder: it escapes backslash and double quote (the full control-character
and non-ASCII escape table of the stdlib is irrelevant to every claim). -/

/-- A flat JSON value, enough for the two early-error objects. -/
inductive JFlat where
  | jstr (s : String)
  | jbool (b : Bool)
deriving DecidableEq, Repr

/-- The module-level import-guard error object:
`{"error": f"Missing dependencies: {e}"}`. -/
def importErrorJson (msg : String) : List (String × JFlat) :=
  [("error", JFlat.jstr ("Missing dependencies: " ++ msg))]

/-- The missing-audio-file error object:
`{"success": False, "error": f"Audio file not found: {audio_path}"}`. -/
def audioNotFoundJson (path : String) : List (String × JFlat) :=
  [("success", JFlat.jbool false),
   ("error", JFlat.jstr ("Audio file not found: " ++ path))]

/-- JSON string escaping (backslash and quote; see module note above). -/
def jsonEscape (s : String) : String :=
  s.data.foldr
    (fun c acc =>
      (if c = '\\' then "\\\\" else if c = '"' then "\\\"" else String.singleton c) ++ acc)
    ""

/-- A JSON string literal. -/
def dumpStr (s : String) : String :=
  "\"" ++ jsonEscape s ++ "\""

/-- A JSON rendering of a number (abstracts Python float repr). -/
def dumpRat (q : Rat) : String :=
  toString q

/-- A flat JSON value, serialized. -/
def dumpFlat : JFlat → String
  | .jstr s => dumpStr s
  | .jbool b => if b then "true" else "false"

/-- `json.dumps` of a flat object with default separators. -/
def dumpsObj (kvs : List (String × JFlat)) : String :=
  "\x7b" ++
    String.intercalate ", "
      (kvs.map (fun kv => dumpStr kv.1 ++ ": " ++ dumpFlat kv.2)) ++
  "\x7d"

/-- One segment record inside the `indent=2` speakers array. -/
def dumpSegment (s : Segment) : String :=
  "\x7b\n      \"speaker\": " ++ dumpStr s.speaker ++
  ",\n      \"start_time\": " ++ dumpRat s.start_time ++
  ",\n      \"end_time\": " ++ dumpRat s.end_time ++
  ",\n      \"duration\": " ++ dumpRat s.duration ++
  ",\n      \"confidence\": " ++ dumpRat s.confidence ++
  "\n    \x7d"

/-- The `indent=2` speakers array. -/
def dumpSpeakers (l : List Segment) : String :=
  if l.isEmpty then "[]"
  else "[\n    " ++ String.intercalate ",\n    " (l.map dumpSegment) ++ "\n  ]"

/-- `json.dumps(result, indent=2)` for the two envelope shapes. -/
def dumpEnvelope : Envelope → String
  | .ok speakers ts tseg mv du =>
    "\x7b\n  \"success\": true,\n  \"speakers\": " ++ dumpSpeakers speakers ++
    ",\n  \"total_speakers\": " ++ toString ts ++
    ",\n  \"total_segments\": " ++ toString tseg ++
    ",\n  \"model_version\": " ++ dumpStr mv ++
    ",\n  \"device_used\": " ++ dumpStr du ++ "\n\x7d"
  | .failure err et =>
    "\x7b\n  \"success\": false,\n  \"error\": " ++ dumpStr err ++
    ",\n  \"error_type\": " ++ dumpStr et ++ "\n\x7d"

/-- Everything observable about one process run.  `fileWrite = some (p, c)`
means the script opened `p` in mode `'w'` and left it with contents exactly
`c` (overwriting anything previously there); `none` means the file was never
opened.  `stdout` is the full standard-output stream of the run. -/
structure RunResult where
  exitCode : Nat
  stdout : String
  fileWrite : Option (String × String)
  mainEntered : Bool
  processAudioEntered : Bool
  events : List Ev
  envelope : Option Envelope
deriving DecidableEq, Repr

/-- Command-line arguments after `argparse` (defaults `model_version="3.1"`,
`device="cpu"` already applied by the parser). -/
structure Args where
  audio_path : String
  auth_token : Option String
  model_version : String
  device : String
  output : Option String

/-- The body of `main()`.  `fe` is `os.path.exists`. -/
def mainBody (args : Args) (fe : String → Bool) (env : Env) : RunResult :=
  if fe args.audio_path = false then
    { exitCode := 1
      stdout := dumpsObj (audioNotFoundJson args.audio_path) ++ "\n"
      fileWrite := none
      mainEntered := true
      processAudioEntered := false
      events := []
      envelope := none }
  else
    let pe := process_audio args.audio_path args.auth_token
      args.model_version args.device env
    let result := dumpEnvelope pe.1
    { exitCode := 0
      stdout := result ++ "\n"
      fileWrite := args.output.map (fun o => (o, result))
      mainEntered := true
      processAudioEntered := true
      events := pe.2
      envelope := some pe.1 }

/-- The whole script run: the module-level import guard
(`importError = some m` models `ImportError` with message `m` being raised),
then `main()`. -/
def runScript (importError : Option String) (args : Args)
    (fe : String → Bool) (env : Env) : RunResult :=
  match importError with
  | some m =>
    { exitCode := 1
      stdout := dumpsObj (importErrorJson m) ++ "\n"
      fileWrite := none
      mainEntered := false
      processAudioEntered := false
      events := []
      envelope := none }
  | none => mainBody args fe env

/-- The envelope with the `device_used` field of a success envelope blanked,
used to state that two runs agree on everything except `device_used`. -/
def eraseDeviceUsed : Envelope → Envelope
  | .ok sp ts tseg mv _ => .ok sp ts tseg mv ""
  | .failure e t => .failure e t

/-! Concrete environments and arguments used by witnesses and
counterexamples. -/

/-- An environment in which every library call succeeds; inference yields
three turns, two of which tie on `start_time` (original order `"C"` after
`"B"`). -/
def envOk : Env :=
  { cacheLoad := fun _ => Except.ok ⟨some "cpu"⟩
    tokenLoad := fun _ _ => Except.ok ⟨some "cpu"⟩
    cudaAvailable := false
    mpsAvailable := false
    toDevice := fun p _ => Except.ok p
    runPipeline := fun _ _ => Except.ok
      [⟨⟨2, 3⟩, "A", "SPEAKER_01"⟩,
       ⟨⟨0, 1⟩, "B", "SPEAKER_00"⟩,
       ⟨⟨0, 2⟩, "C", "SPEAKER_01"⟩] }

/-- The segment list `process_audio` produces under `envOk`, already sorted. -/
def spW : List Segment :=
  [⟨"SPEAKER_00", 0, 1, 1, 1⟩,
   ⟨"SPEAKER_01", 0, 2, 2, 1⟩,
   ⟨"SPEAKER_01", 2, 3, 1, 1⟩]

/-- An environment in which the cache-only load always fails. -/
def envFail : Env :=
  { cacheLoad := fun _ => Except.error ⟨"boom", "RuntimeError"⟩
    tokenLoad := fun _ _ => Except.error ⟨"net down", "HTTPError"⟩
    cudaAvailable := false
    mpsAvailable := false
    toDevice := fun p _ => Except.ok p
    runPipeline := fun _ _ => Except.ok [] }

/-- An environment in which everything succeeds but the pipeline object
exposes no `device` attribute. -/
def envNoAttr : Env :=
  { cacheLoad := fun _ => Except.ok ⟨none⟩
    tokenLoad := fun _ _ => Except.ok ⟨none⟩
    cudaAvailable := false
    mpsAvailable := false
    toDevice := fun p _ => Except.ok p
    runPipeline := fun _ _ => Except.ok [] }

/-- Arguments with an `--output` path. -/
def argsOut : Args :=
  { audio_path := "a.wav"
    auth_token := none
    model_version := "3.1"
    device := "cpu"
    output := some "out.json" }

/-- Arguments with no `--output` path. -/
def argsPlain : Args :=
  { audio_path := "a.wav"
    auth_token := none
    model_version := "3.1"
    device := "cpu"
    output := none }

/-! Helper lemmas (shared). -/

theorem segLE_trans :
    ∀ a b c : Segment, segLE a b = true → segLE b c = true → segLE a c = true := by
  intro a b c hab hbc
  simp only [segLE, decide_eq_true_eq] at *
  exact le_trans hab hbc

theorem segLE_total : ∀ a b : Segment, (segLE a b || segLE b a) = true := by
  intro a b
  simp only [segLE, Bool.or_eq_true, decide_eq_true_eq]
  exact le_total _ _

theorem sortSegments_sorted (l : List Segment) :
    (sortSegments l).Pairwise (fun a b => a.start_time ≤ b.start_time) := by
  have h := List.sorted_mergeSort segLE_trans segLE_total l
  exact h.imp (fun hab => by simpa [segLE] using hab)

theorem sortSegments_perm (l : List Segment) : (sortSegments l).Perm l :=
  List.mergeSort_perm l segLE

theorem sortSegments_filter_eq (l : List Segment) (q : Rat) :
    (sortSegments l).filter (fun s => decide (s.start_time = q)) =
      l.filter (fun s => decide (s.start_time = q)) := by
  have hp : (l.filter (fun s => decide (s.start_time = q))).Pairwise
      (fun a b => segLE a b = true) := by
    apply List.pairwise_of_forall_mem_list
    intro a ha b hb
    have ha3 : a.start_time = q := of_decide_eq_true (List.mem_filter.mp ha).2
    have hb3 : b.start_time = q := of_decide_eq_true (List.mem_filter.mp hb).2
    simp [segLE, ha3, hb3]
  have hsub : (l.filter (fun s => decide (s.start_time = q))).Sublist
      (sortSegments l) :=
    List.sublist_mergeSort segLE_trans segLE_total hp (List.filter_sublist l)
  have hsub2 := List.Sublist.filter (fun s => decide (s.start_time = q)) hsub
  have hff : (List.filter (fun s => decide (s.start_time = q))
        (List.filter (fun s => decide (s.start_time = q)) l)) =
      l.filter (fun s => decide (s.start_time = q)) := by
    rw [List.filter_filter]
    simp
  rw [hff] at hsub2
  have hperm : ((sortSegments l).filter (fun s => decide (s.start_time = q))).Perm
      (l.filter (fun s => decide (s.start_time = q))) :=
    List.Perm.filter _ (List.mergeSort_perm l segLE)
  exact (List.Sublist.eq_of_length hsub2 hperm.length_eq.symm).symm

theorem process_audio_ok_inv (path : String) (tok : Option String)
    (mv dev : String) (env : Env) (sp : List Segment) (ts tseg : Nat)
    (mv2 du : String) (evs : List Ev)
    (h : process_audio path tok mv dev env = (Envelope.ok sp ts tseg mv2 du, evs)) :
    ∃ p tr p2 tr2 tracks,
      phaseLoad (pipelineName mv) tok env = (Except.ok p, tr) ∧
      phaseDevice dev env p = (Except.ok p2, tr2) ∧
      env.runPipeline p2 path = Except.ok tracks ∧
      sp = sortSegments (tracks.map mkSegment) ∧
      ts = (sp.map Segment.speaker).dedup.length ∧
      tseg = sp.length ∧
      mv2 = mv ∧ du = deviceUsed p2 dev ∧
      evs = tr ++ tr2 ++ [Ev.runInference] := by
  unfold process_audio at h
  split at h
  · simp at h
  · rename_i p tr heqL
    split at h
    · simp at h
    · rename_i p2 tr2 heqD
      split at h
      · simp at h
      · rename_i tracks heqR
        simp only [Prod.mk.injEq, Envelope.ok.injEq] at h
        obtain ⟨⟨h1, h2, h3, h4, h5⟩, h6⟩ := h
        subst h1
        exact ⟨p, tr, p2, tr2, tracks, heqL, heqD, heqR, rfl,
          h2.symm, h3.symm, h4.symm, h5.symm, h6.symm⟩

/-- C1: for every successful run of `process_audio`, the envelope's speakers
list is sorted non-decreasingly by `start_time` (a stable sort of the
pipeline's iteration order: it is a permutation of it, and segments sharing
a `start_time` keep their original relative order), `total_segments` equals
the length of the speakers list, and `total_speakers` equals the number of
distinct speaker labels among the segments. -/
theorem claim_C1 (path : String) (tok : Option String) (mv dev : String)
    (env : Env) (sp : List Segment) (ts tseg : Nat) (mv2 du : String)
    (evs : List Ev)
    (h : process_audio path tok mv dev env = (Envelope.ok sp ts tseg mv2 du, evs)) :
    sp.Pairwise (fun a b => a.start_time ≤ b.start_time) ∧
    tseg = sp.length ∧
    ts = (sp.map Segment.speaker).toFinset.card ∧
    ∃ p2 tracks, env.runPipeline p2 path = Except.ok tracks ∧
      sp = sortSegments (tracks.map mkSegment) ∧
      sp.Perm (tracks.map mkSegment) ∧
      ∀ q : Rat, sp.filter (fun s => decide (s.start_time = q)) =
        (tracks.map mkSegment).filter (fun s => decide (s.start_time = q)) := by
  obtain ⟨p, tr, p2, tr2, tracks, hL, hD, hR, hsp, hts, htseg, hmv, hdu, hevs⟩ :=
    process_audio_ok_inv path tok mv dev env sp ts tseg mv2 du evs h
  refine ⟨?_, htseg, ?_, p2, tracks, hR, hsp, ?_, ?_⟩
  · rw [hsp]
    exact sortSegments_sorted _
  · rw [hts, List.card_toFinset]
  · rw [hsp]
    exact sortSegments_perm _
  · intro q
    rw [hsp]
    exact sortSegments_filter_eq _ q

unseal List.merge List.mergeSort Rat.sub in
/-- Witness for C1 at a concrete environment with a `start_time` tie. -/
theorem claim_C1_witness :
    spW.Pairwise (fun a b => a.start_time ≤ b.start_time) ∧
    3 = spW.length ∧
    2 = (spW.map Segment.speaker).toFinset.card ∧
    ∃ p2 tracks, envOk.runPipeline p2 "a.wav" = Except.ok tracks ∧
      spW = sortSegments (tracks.map mkSegment) ∧
      spW.Perm (tracks.map mkSegment) ∧
      ∀ q : Rat, spW.filter (fun s => decide (s.start_time = q)) =
        (tracks.map mkSegment).filter (fun s => decide (s.start_time = q)) :=
  claim_C1 "a.wav" none "3.1" "cpu" envOk spW 2 3 "3.1" "cpu"
    [Ev.loadNoToken, Ev.runInference] (by decide)

/-- C8: every segment of a successful run has
`duration = end_time - start_time` and `confidence = 1.0`. -/
theorem claim_C8 (path : String) (tok : Option String) (mv dev : String)
    (env : Env) (sp : List Segment) (ts tseg : Nat) (mv2 du : String)
    (evs : List Ev)
    (h : process_audio path tok mv dev env = (Envelope.ok sp ts tseg mv2 du, evs)) :
    ∀ s ∈ sp, s.duration = s.end_time - s.start_time ∧ s.confidence = 1 := by
  obtain ⟨p, tr, p2, tr2, tracks, hL, hD, hR, hsp, hts, htseg, hmv, hdu, hevs⟩ :=
    process_audio_ok_inv path tok mv dev env sp ts tseg mv2 du evs h
  intro s hs
  rw [hsp] at hs
  have hs2 : s ∈ tracks.map mkSegment := by
    simpa [sortSegments] using hs
  obtain ⟨t, _, rfl⟩ := List.mem_map.mp hs2
  exact ⟨rfl, rfl⟩

unseal List.merge List.mergeSort Rat.sub in
/-- Witness for C8 at a concrete segment of a concrete successful run. -/
theorem claim_C8_witness :
    (⟨"SPEAKER_00", 0, 1, 1, 1⟩ : Segment).duration =
        (⟨"SPEAKER_00", 0, 1, 1, 1⟩ : Segment).end_time -
          (⟨"SPEAKER_00", 0, 1, 1, 1⟩ : Segment).start_time ∧
    (⟨"SPEAKER_00", 0, 1, 1, 1⟩ : Segment).confidence = 1 :=
  claim_C8 "a.wav" none "3.1" "cpu" envOk spW 2 3 "3.1" "cpu"
    [Ev.loadNoToken, Ev.runInference] (by decide) _ (by decide)

theorem process_audio_load_error (path : String) (tok : Option String)
    (mv dev : String) (env : Env) (e : PyErr) (tr : List Ev)
    (hL : phaseLoad (pipelineName mv) tok env = (Except.error e, tr)) :
    process_audio path tok mv dev env = (Envelope.failure e.msg e.typeName, tr) := by
  unfold process_audio
  simp only [hL]

theorem process_audio_device_error (path : String) (tok : Option String)
    (mv dev : String) (env : Env) (p : Pipeline) (tr : List Ev) (e : PyErr)
    (tr2 : List Ev)
    (hL : phaseLoad (pipelineName mv) tok env = (Except.ok p, tr))
    (hD : phaseDevice dev env p = (Except.error e, tr2)) :
    process_audio path tok mv dev env =
      (Envelope.failure e.msg e.typeName, tr ++ tr2) := by
  unfold process_audio
  simp only [hL, hD]

theorem process_audio_run_error (path : String) (tok : Option String)
    (mv dev : String) (env : Env) (p : Pipeline) (tr : List Ev) (p2 : Pipeline)
    (tr2 : List Ev) (e : PyErr)
    (hL : phaseLoad (pipelineName mv) tok env = (Except.ok p, tr))
    (hD : phaseDevice dev env p = (Except.ok p2, tr2))
    (hR : env.runPipeline p2 path = Except.error e) :
    process_audio path tok mv dev env =
      (Envelope.failure e.msg e.typeName, tr ++ tr2 ++ [Ev.runInference]) := by
  unfold process_audio
  simp only [hL, hD, hR]

theorem process_audio_run_ok (path : String) (tok : Option String)
    (mv dev : String) (env : Env) (p : Pipeline) (tr : List Ev) (p2 : Pipeline)
    (tr2 : List Ev) (tracks : List TrackEntry)
    (hL : phaseLoad (pipelineName mv) tok env = (Except.ok p, tr))
    (hD : phaseDevice dev env p = (Except.ok p2, tr2))
    (hR : env.runPipeline p2 path = Except.ok tracks) :
    process_audio path tok mv dev env =
      (Envelope.ok (sortSegments (tracks.map mkSegment))
        (((sortSegments (tracks.map mkSegment)).map Segment.speaker).dedup.length)
        (sortSegments (tracks.map mkSegment)).length mv (deviceUsed p2 dev),
       tr ++ tr2 ++ [Ev.runInference]) := by
  unfold process_audio
  simp only [hL, hD, hR]

theorem phaseLoad_trace (name : String) (tok : Option String) (env : Env) :
    (phaseLoad name tok env).2 = [Ev.loadNoToken] ∨
    (phaseLoad name tok env).2 = [Ev.loadNoToken, Ev.loadWithToken] := by
  unfold phaseLoad
  cases hc : env.cacheLoad name with
  | ok p => left; rfl
  | error ce =>
    by_cases hf : pyFalsy tok = true
    · left
      simp [hf]
    · right
      cases hT : env.tokenLoad name (tok.getD "") <;> simp [hf, hT]

theorem phaseDevice_load_free (dev : String) (env : Env) (p : Pipeline) :
    (phaseDevice dev env p).2.filter Ev.isLoad = [] := by
  unfold phaseDevice
  split
  · rfl
  · split
    · rfl
    · rfl

theorem process_audio_loadEvents (path : String) (tok : Option String)
    (mv dev : String) (env : Env) :
    (process_audio path tok mv dev env).2.filter Ev.isLoad =
      (phaseLoad (pipelineName mv) tok env).2.filter Ev.isLoad := by
  rcases hL : phaseLoad (pipelineName mv) tok env with ⟨r1, tr⟩
  cases r1 with
  | error e =>
    rw [process_audio_load_error path tok mv dev env e tr hL]
  | ok p =>
    have htr2 : (phaseDevice dev env p).2.filter Ev.isLoad = [] :=
      phaseDevice_load_free dev env p
    rcases hD : phaseDevice dev env p with ⟨r2, tr2⟩
    rw [hD] at htr2
    cases r2 with
    | error e =>
      rw [process_audio_device_error path tok mv dev env p tr e tr2 hL hD]
      simp only at htr2
      simp [List.filter_append, htr2]
    | ok p2 =>
      rcases hR : env.runPipeline p2 path with e | tracks
      · rw [process_audio_run_error path tok mv dev env p tr p2 tr2 e hL hD hR]
        simp only at htr2
        simp [List.filter_append, htr2, Ev.isLoad]
      · rw [process_audio_run_ok path tok mv dev env p tr p2 tr2 tracks hL hD hR]
        simp only at htr2
        simp [List.filter_append, htr2, Ev.isLoad]

theorem str_contains_extend {n h1 : String} (h2 : String)
    (hinf : n.data <:+: h1.data) : n.data <:+: (h1 ++ h2).data := by
  obtain ⟨s, t, hst⟩ := hinf
  refine ⟨s, t ++ h2.data, ?_⟩
  rw [String.data_append, ← hst]
  simp [List.append_assoc]

/-- C2: every exception raised during model load, device transfer or pipeline
execution is caught by `process_audio` and turned into a returned envelope
with `success = false`, `error` the exception's message and `error_type` the
exception's class name, and the process still exits with status 0. -/
theorem claim_C2 (args : Args) (fe : String → Bool) (env : Env)
    (h : fe args.audio_path = true) :
    (∀ e tr, phaseLoad (pipelineName args.model_version) args.auth_token env =
        (Except.error e, tr) →
      (runScript none args fe env).envelope =
          some (Envelope.failure e.msg e.typeName) ∧
      (runScript none args fe env).exitCode = 0) ∧
    (∀ p tr e tr2, phaseLoad (pipelineName args.model_version) args.auth_token env =
        (Except.ok p, tr) →
      phaseDevice args.device env p = (Except.error e, tr2) →
      (runScript none args fe env).envelope =
          some (Envelope.failure e.msg e.typeName) ∧
      (runScript none args fe env).exitCode = 0) ∧
    (∀ p tr p2 tr2 e, phaseLoad (pipelineName args.model_version) args.auth_token env =
        (Except.ok p, tr) →
      phaseDevice args.device env p = (Except.ok p2, tr2) →
      env.runPipeline p2 args.audio_path = Except.error e →
      (runScript none args fe env).envelope =
          some (Envelope.failure e.msg e.typeName) ∧
      (runScript none args fe env).exitCode = 0) := by
  refine ⟨?_, ?_, ?_⟩
  · intro e tr hL
    have hpa := process_audio_load_error args.audio_path args.auth_token
      args.model_version args.device env e tr hL
    simp [runScript, mainBody, h, hpa]
  · intro p tr e tr2 hL hD
    have hpa := process_audio_device_error args.audio_path args.auth_token
      args.model_version args.device env p tr e tr2 hL hD
    simp [runScript, mainBody, h, hpa]
  · intro p tr p2 tr2 e hL hD hR
    have hpa := process_audio_run_error args.audio_path args.auth_token
      args.model_version args.device env p tr p2 tr2 e hL hD hR
    simp [runScript, mainBody, h, hpa]

/-- Witness for C2: a concrete run whose cache load fails with no token. -/
theorem claim_C2_witness :
    (runScript none argsPlain (fun _ => true) envFail).envelope =
        some (Envelope.failure (noTokenMsg "boom") "Exception") ∧
    (runScript none argsPlain (fun _ => true) envFail).exitCode = 0 :=
  (claim_C2 argsPlain (fun _ => true) envFail rfl).1
    ⟨noTokenMsg "boom", "Exception"⟩ [Ev.loadNoToken] rfl

/-- C3 counterexample: on a concrete cache miss with no token the failure
message is "Model not in cache and no auth token provided. Cache error: boom",
which does not contain the literal substring "not cached" the claim quotes. -/
theorem claim_C3_counterexample :
    (process_audio "a.wav" none "3.1" "cpu" envFail).1 =
      Envelope.failure
        "Model not in cache and no auth token provided. Cache error: boom"
        "Exception" ∧
    ¬ ("not cached").data <:+:
        ("Model not in cache and no auth token provided. Cache error: boom").data := by
  constructor
  · rfl
  · decide

/-- C3 (amended): model acquisition is a two-phase ordered fallback.  The
first `from_pretrained` attempt is always uncredentialed; on a cache-load
error with a falsy token the run fails with a message combining "not in
cache" (not "not cached") and the original cache-load error; with a token it
retries instantiation exactly once passing the token, with no further load
attempts; on a cache hit no token load ever happens. -/
theorem claim_C3 (path : String) (tok : Option String) (mv dev : String)
    (env : Env) :
    (∀ ce, env.cacheLoad (pipelineName mv) = Except.error ce →
      pyFalsy tok = true →
      (process_audio path tok mv dev env).1 =
          Envelope.failure (noTokenMsg ce.msg) "Exception" ∧
      ("not in cache").data <:+: (noTokenMsg ce.msg).data ∧
      ce.msg.data <:+: (noTokenMsg ce.msg).data ∧
      (process_audio path tok mv dev env).2.filter Ev.isLoad =
        [Ev.loadNoToken]) ∧
    (∀ ce, env.cacheLoad (pipelineName mv) = Except.error ce →
      pyFalsy tok = false →
      (process_audio path tok mv dev env).2.filter Ev.isLoad =
        [Ev.loadNoToken, Ev.loadWithToken]) ∧
    (∀ p, env.cacheLoad (pipelineName mv) = Except.ok p →
      (process_audio path tok mv dev env).2.filter Ev.isLoad =
        [Ev.loadNoToken]) := by
  refine ⟨?_, ?_, ?_⟩
  · intro ce hce htok
    have hL : phaseLoad (pipelineName mv) tok env =
        (Except.error ⟨noTokenMsg ce.msg, "Exception"⟩, [Ev.loadNoToken]) := by
      unfold phaseLoad
      simp [hce, htok]
    refine ⟨?_, ?_, ?_, ?_⟩
    · rw [process_audio_load_error path tok mv dev env _ _ hL]
    · exact str_contains_extend ce.msg (by decide)
    · unfold noTokenMsg
      rw [String.data_append]
      exact ⟨("Model not in cache and no auth token provided. Cache error: ").data,
        [], by simp⟩
    · rw [process_audio_loadEvents, hL]
      rfl
  · intro ce hce htok
    have hload2 : (phaseLoad (pipelineName mv) tok env).2 =
        [Ev.loadNoToken, Ev.loadWithToken] := by
      unfold phaseLoad
      cases hT : env.tokenLoad (pipelineName mv) (tok.getD "") <;>
        simp [hce, htok, hT]
    rw [process_audio_loadEvents, hload2]
    rfl
  · intro p hp
    have hload1 : (phaseLoad (pipelineName mv) tok env).2 = [Ev.loadNoToken] := by
      unfold phaseLoad
      simp [hp]
    rw [process_audio_loadEvents, hload1]
    rfl

/-- Witness for C3: a concrete cache miss with a token retries exactly once. -/
theorem claim_C3_witness :
    (process_audio "a.wav" (some "hf_token") "3.1" "cpu" envFail).2.filter
        Ev.isLoad = [Ev.loadNoToken, Ev.loadWithToken] :=
  (claim_C3 "a.wav" (some "hf_token") "3.1" "cpu" envFail).2.1
    ⟨"boom", "RuntimeError"⟩ rfl rfl

theorem append_newline_ne (s : String) : s ≠ s ++ "\n" := by
  intro h
  have h2 := congrArg String.length h
  rw [String.length_append] at h2
  have h3 : ("\n" : String).length = 1 := rfl
  rw [h3] at h2
  omega

/-- C4: when the audio path does not exist, the process exits 1 after
printing a JSON object with `success` false and an `error` field containing
the path, never enters `process_audio` (no library call happens), and never
touches the output file. -/
theorem claim_C4 (args : Args) (fe : String → Bool) (env : Env)
    (h : fe args.audio_path = false) :
    (runScript none args fe env).exitCode = 1 ∧
    (runScript none args fe env).processAudioEntered = false ∧
    (runScript none args fe env).events = [] ∧
    (runScript none args fe env).fileWrite = none ∧
    (runScript none args fe env).stdout =
      dumpsObj (audioNotFoundJson args.audio_path) ++ "\n" ∧
    (audioNotFoundJson args.audio_path).lookup "success" =
      some (JFlat.jbool false) ∧
    (audioNotFoundJson args.audio_path).lookup "error" =
      some (JFlat.jstr ("Audio file not found: " ++ args.audio_path)) ∧
    args.audio_path.data <:+:
      ("Audio file not found: " ++ args.audio_path).data := by
  refine ⟨?_, ?_, ?_, ?_, ?_, rfl, rfl, ?_⟩
  · simp [runScript, mainBody, h]
  · simp [runScript, mainBody, h]
  · simp [runScript, mainBody, h]
  · simp [runScript, mainBody, h]
  · simp [runScript, mainBody, h]
  · rw [String.data_append]
    exact ⟨("Audio file not found: ").data, [], by simp⟩

/-- Witness for C4 at concrete arguments whose audio path does not exist. -/
theorem claim_C4_witness :
    (runScript none argsPlain (fun _ => false) envFail).exitCode = 1 ∧
    (runScript none argsPlain (fun _ => false) envFail).processAudioEntered =
      false ∧
    (runScript none argsPlain (fun _ => false) envFail).events = [] ∧
    (runScript none argsPlain (fun _ => false) envFail).fileWrite = none ∧
    (runScript none argsPlain (fun _ => false) envFail).stdout =
      dumpsObj (audioNotFoundJson argsPlain.audio_path) ++ "\n" ∧
    (audioNotFoundJson argsPlain.audio_path).lookup "success" =
      some (JFlat.jbool false) ∧
    (audioNotFoundJson argsPlain.audio_path).lookup "error" =
      some (JFlat.jstr ("Audio file not found: " ++ argsPlain.audio_path)) ∧
    argsPlain.audio_path.data <:+:
      ("Audio file not found: " ++ argsPlain.audio_path).data :=
  claim_C4 argsPlain (fun _ => false) envFail rfl

/-- C5 counterexample: on a concrete run with `--output`, the output file
holds the JSON text while standard output holds the same text followed by a
newline (appended by `print`), so the two byte streams are not identical. -/
theorem claim_C5_counterexample :
    (runScript none argsOut (fun _ => true) envFail).fileWrite.map Prod.snd ≠
      some ((runScript none argsOut (fun _ => true) envFail).stdout) ∧
    (runScript none argsOut (fun _ => true) envFail).fileWrite.map Prod.fst =
      some "out.json" := by
  constructor
  · intro hcontra
    have hW : (runScript none argsOut (fun _ => true) envFail).fileWrite.map
        Prod.snd =
        some (dumpEnvelope (Envelope.failure (noTokenMsg "boom") "Exception")) :=
      rfl
    have hS : (runScript none argsOut (fun _ => true) envFail).stdout =
        dumpEnvelope (Envelope.failure (noTokenMsg "boom") "Exception") ++ "\n" :=
      rfl
    rw [hW, hS] at hcontra
    exact append_newline_ne _ (Option.some.inj hcontra)
  · rfl

/-- C5 (amended): on every run that passes the path check and has
`--output`, the output file receives exactly the JSON text and standard
output receives that same text followed by one trailing newline; so the two
agree except for the newline `print` appends. -/
theorem claim_C5 (args : Args) (fe : String → Bool) (env : Env) (out : String)
    (h1 : args.output = some out) (h2 : fe args.audio_path = true) :
    ∃ s, (runScript none args fe env).fileWrite = some (out, s) ∧
      (runScript none args fe env).stdout = s ++ "\n" := by
  refine ⟨dumpEnvelope (process_audio args.audio_path args.auth_token
    args.model_version args.device env).1, ?_, ?_⟩ <;>
    simp [runScript, mainBody, h1, h2]

/-- Witness for C5 at a concrete run with an output path. -/
theorem claim_C5_witness :
    ∃ s, (runScript none argsOut (fun _ => true) envFail).fileWrite =
        some ("out.json", s) ∧
      (runScript none argsOut (fun _ => true) envFail).stdout = s ++ "\n" :=
  claim_C5 argsOut (fun _ => true) envFail "out.json" rfl rfl

unseal List.merge List.mergeSort in
/-- C6 counterexample: with cuda requested but unavailable and a pipeline
object exposing no `device` attribute, the successful envelope differs from
the cpu run's envelope: its `device_used` field echoes "cuda" although no
transfer happened. -/
theorem claim_C6_counterexample :
    (process_audio "a.wav" none "3.1" "cuda" envNoAttr).1 ≠
      (process_audio "a.wav" none "3.1" "cpu" envNoAttr).1 ∧
    envNoAttr.cudaAvailable = false := by
  refine ⟨?_, rfl⟩
  decide

/-- C6 (amended): when the requested accelerator (cuda or mps) is
unavailable, no device transfer is attempted, no error arises from the
unavailability, and the run behaves as with device "cpu" except that the
`device_used` field of a success envelope echoes the requested device when
the pipeline exposes no `device` attribute; when it does expose one, the two
runs produce identical results. -/
theorem claim_C6 (path : String) (tok : Option String) (mv dev : String)
    (env : Env)
    (h : (dev = "cuda" ∧ env.cudaAvailable = false) ∨
         (dev = "mps" ∧ env.mpsAvailable = false)) :
    (∀ d, Ev.moveTo d ∉ (process_audio path tok mv dev env).2) ∧
    (process_audio path tok mv dev env).2 =
      (process_audio path tok mv "cpu" env).2 ∧
    eraseDeviceUsed (process_audio path tok mv dev env).1 =
      eraseDeviceUsed (process_audio path tok mv "cpu" env).1 ∧
    (∀ p tr, phaseLoad (pipelineName mv) tok env = (Except.ok p, tr) →
      p.device.isSome = true →
      process_audio path tok mv dev env =
        process_audio path tok mv "cpu" env) := by
  have hdev : ∀ p, phaseDevice dev env p = (Except.ok p, []) := by
    intro p
    rcases h with ⟨rfl, hc⟩ | ⟨rfl, hm⟩
    · simp [phaseDevice, hc]
    · simp [phaseDevice, hm]
  have hcpu : ∀ p, phaseDevice "cpu" env p = (Except.ok p, []) := by
    intro p
    simp [phaseDevice]
  have hmv0 : ∀ d, Ev.moveTo d ∉ (phaseLoad (pipelineName mv) tok env).2 := by
    intro d
    rcases phaseLoad_trace (pipelineName mv) tok env with h1 | h1 <;>
      rw [h1] <;> simp
  rcases hL : phaseLoad (pipelineName mv) tok env with ⟨r1, tr⟩
  rw [hL] at hmv0
  have hmv : ∀ d, Ev.moveTo d ∉ tr := hmv0
  cases r1 with
  | error e =>
    have ha := process_audio_load_error path tok mv dev env e tr hL
    have hb := process_audio_load_error path tok mv "cpu" env e tr hL
    refine ⟨?_, ?_, ?_, ?_⟩
    · intro d
      rw [ha]
      exact hmv d
    · rw [ha, hb]
    · rw [ha, hb]
    · intro p3 tr3 hp3 _
      simp at hp3
  | ok p =>
    have hD := hdev p
    have hDc := hcpu p
    rcases hR : env.runPipeline p path with e | tracks
    · have ha := process_audio_run_error path tok mv dev env p tr p [] e hL hD hR
      have hb := process_audio_run_error path tok mv "cpu" env p tr p [] e hL
        hDc hR
      refine ⟨?_, ?_, ?_, ?_⟩
      · intro d
        rw [ha]
        simp [hmv d]
      · rw [ha, hb]
      · rw [ha, hb]
      · intro p3 tr3 hp3 _
        rw [ha, hb]
    · have ha := process_audio_run_ok path tok mv dev env p tr p [] tracks hL
        hD hR
      have hb := process_audio_run_ok path tok mv "cpu" env p tr p [] tracks hL
        hDc hR
      refine ⟨?_, ?_, ?_, ?_⟩
      · intro d
        rw [ha]
        simp [hmv d]
      · rw [ha, hb]
      · rw [ha, hb]
        rfl
      · intro p3 tr3 hp3 hsome
        simp only [Prod.mk.injEq, Except.ok.injEq] at hp3
        obtain ⟨hp3a, hp3b⟩ := hp3
        subst hp3a
        have hdev_eq : deviceUsed p dev = deviceUsed p "cpu" := by
          unfold deviceUsed
          cases hpd : p.device with
          | some d2 => rfl
          | none =>
            rw [hpd] at hsome
            simp at hsome
        rw [ha, hb, hdev_eq]

/-- Witness for C6 at a concrete environment with cuda requested but
unavailable. -/
theorem claim_C6_witness :
    Ev.moveTo "cuda" ∉ (process_audio "a.wav" none "3.1" "cuda" envNoAttr).2 ∧
    (process_audio "a.wav" none "3.1" "cuda" envNoAttr).2 =
      (process_audio "a.wav" none "3.1" "cpu" envNoAttr).2 ∧
    eraseDeviceUsed (process_audio "a.wav" none "3.1" "cuda" envNoAttr).1 =
      eraseDeviceUsed (process_audio "a.wav" none "3.1" "cpu" envNoAttr).1 := by
  have h := claim_C6 "a.wav" none "3.1" "cuda" envNoAttr (Or.inl ⟨rfl, rfl⟩)
  exact ⟨h.1 "cuda", h.2.1, h.2.2.1⟩

/-- C7: when the third-party dependencies cannot be imported, the process
prints the JSON error object to standard output and exits 1 before doing any
other work (`main` is never entered, no file is touched, no library call is
made). -/
theorem claim_C7 (m : String) (args : Args) (fe : String → Bool) (env : Env) :
    (runScript (some m) args fe env).exitCode = 1 ∧
    (runScript (some m) args fe env).stdout =
      dumpsObj (importErrorJson m) ++ "\n" ∧
    (runScript (some m) args fe env).mainEntered = false ∧
    (runScript (some m) args fe env).processAudioEntered = false ∧
    (runScript (some m) args fe env).fileWrite = none ∧
    (runScript (some m) args fe env).events = [] :=
  ⟨rfl, rfl, rfl, rfl, rfl, rfl⟩

/-- C9: an in-pipeline failure with `--output` still writes the
failure-shaped envelope to the output file (whose final contents are exactly
that write), while the pre-flight missing-audio-file failure never opens the
output file. -/
theorem claim_C9 (args : Args) (fe : String → Bool) (env : Env)
    (out em et : String) :
    (fe args.audio_path = true → args.output = some out →
      (runScript none args fe env).envelope =
        some (Envelope.failure em et) →
      (runScript none args fe env).fileWrite =
        some (out, dumpEnvelope (Envelope.failure em et))) ∧
    (fe args.audio_path = false →
      (runScript none args fe env).fileWrite = none) := by
  constructor
  · intro h1 h2 h3
    simp only [runScript, mainBody, h1] at h3 ⊢
    simp only [Bool.true_eq_false, if_false, Option.some.injEq] at h3 ⊢
    rw [h2]
    simp [h3]
  · intro h1
    simp [runScript, mainBody, h1]

/-- Witness for C9 at a concrete failing run with an output path. -/
theorem claim_C9_witness :
    (runScript none argsOut (fun _ => true) envFail).fileWrite =
      some ("out.json",
        dumpEnvelope (Envelope.failure (noTokenMsg "boom") "Exception")) :=
  (claim_C9 argsOut (fun _ => true) envFail "out.json" (noTokenMsg "boom")
    "Exception").1 rfl rfl rfl

/-- C10: the import-guard error JSON has only an "error" key and no
"success" key, while the missing-audio-file error JSON has both
"success": false and "error"; the two exit-1 paths emit differently shaped
objects, so looking up "success" gives `none` for one and `some false` for
the other. -/
theorem claim_C10 (m path : String) :
    (importErrorJson m).map Prod.fst = ["error"] ∧
    (importErrorJson m).lookup "success" = none ∧
    (audioNotFoundJson path).lookup "success" = some (JFlat.jbool false) ∧
    (audioNotFoundJson path).lookup "error" =
      some (JFlat.jstr ("Audio file not found: " ++ path)) :=
  ⟨rfl, rfl, rfl, rfl⟩
